import Mathlib

/-!
# Verification of the dashboard data-integration and filter/aggregation core

Shallow embedding of `src/dashboard.py`: the data loader (`load_data`, six CSV
reads followed by five left joins, memoized by a process-level cache), the
filter function (`filter_data`) and the aggregation expressions of `main`
(unique counts, mean/sum of unit price, grouped sums by size and brand).

Modelling conventions:
* a CSV table is a `List` of typed rows; a cell that may be missing (NaN) is
  an `Option`;
* numeric columns (`Unit Price`, `Tax Amount`) are exact rationals `ℚ`;
  `Calendar Year` is integer-valued (pandas stores it as a float after the
  left join, but its value is a whole number compared by integer equality);
* a pandas left merge produces, for each left row, one output row per
  matching right row, or a single null-extended row when no right row
  matches (`leftJoin`);
* the filesystem seen by `load_data` is a record of optional tables: `none`
  models a missing file (`FileNotFoundError`); `st.cache_data` is modelled
  by explicit state passing of an optional cached view, with nothing cached
  when the wrapped call raises;
* Python `int(s)` on the year filter value is `pyInt`, failing (`none`) on
  non-numeric input; the uncaught `ValueError` of the code plays the role of
  `InvalidFilterError` in the spec.
-/

set_option autoImplicit false

namespace Dashboard

/-- One record of `FactSale.csv`: the five foreign keys used by the joins and
the two measures used by the aggregations. -/
structure FactRow where
  customerKey : Int
  cityKey : Int
  salespersonKey : Int
  stockItemKey : Int
  invoiceDateKey : Int
  unitPrice : ℚ
  taxAmount : ℚ
deriving DecidableEq, Repr

/-- One record of `DimCostumer.csv` (the source file name keeps the
misspelling): join key `Customer Key` plus descriptive attributes. -/
structure DimCustomerRow where
  customerKey : Int
  customer : Option String
deriving DecidableEq, Repr

/-- One record of `DimCity.csv`: join key `City Key`, city name and the
`State Province` column used by the region filter. -/
structure DimCityRow where
  cityKey : Int
  city : Option String
  stateProvince : Option String
deriving DecidableEq, Repr

/-- One record of `DimEmployee.csv`: join key `Employee Key` plus attributes. -/
structure DimEmployeeRow where
  employeeKey : Int
  employee : Option String
deriving DecidableEq, Repr

/-- One record of `DimStockItem.csv`: join key `Stock Item Key` and the
`Color`, `Size`, `Brand` columns used by the aggregations. -/
structure DimStockItemRow where
  stockItemKey : Int
  color : Option String
  size : Option String
  brand : Option String
deriving DecidableEq, Repr

/-- One record of `DimDate.csv`: join key `Date` and the `Calendar Year`
column used by the year filter. -/
structure DimDateRow where
  date : Int
  calendarYear : Int
deriving DecidableEq, Repr

/-- One row of the Integrated View produced by `load_data`: the fact measures
together with the dimension columns the filter and the aggregations read.
Dimension columns are `Option`s because a left join fills unmatched rows
with missing values. -/
structure Row where
  unitPrice : ℚ
  taxAmount : ℚ
  customer : Option String
  city : Option String
  stateProvince : Option String
  employee : Option String
  color : Option String
  size : Option String
  brand : Option String
  calendarYear : Option Int
deriving DecidableEq, Repr

/-- The rows a left merge produces for one left row `l`: one output row per
right row with an equal key, or a single row paired with `none` when no right
row matches. -/
def joinRow {α β γ : Type} (rs : List β) (kl : α → Int) (kr : β → Int)
    (mk : α → Option β → γ) (l : α) : List γ :=
  match rs.filter (fun r => decide (kr r = kl l)) with
  | [] => [mk l none]
  | ms => ms.map (fun r => mk l (some r))

/-- Left merge in the sense of `pandas.DataFrame.merge(..., how=left)`. -/
def leftJoin {α β γ : Type} (ls : List α) (rs : List β)
    (kl : α → Int) (kr : β → Int) (mk : α → Option β → γ) : List γ :=
  (ls.map (joinRow rs kl kr mk)).flatten

/-- Flatten the nested pair produced by the five-step join pipeline into an
Integrated View row, reading each dimension column through the `Option` of
its join. -/
def toRow
    (p : ((((FactRow × Option DimCustomerRow) × Option DimCityRow) ×
        Option DimEmployeeRow) × Option DimStockItemRow) × Option DimDateRow) :
    Row :=
  let f := p.1.1.1.1.1
  { unitPrice := f.unitPrice
    taxAmount := f.taxAmount
    customer := p.1.1.1.1.2.bind (fun c => c.customer)
    city := p.1.1.1.2.bind (fun c => c.city)
    stateProvince := p.1.1.1.2.bind (fun c => c.stateProvince)
    employee := p.1.1.2.bind (fun e => e.employee)
    color := p.1.2.bind (fun s => s.color)
    size := p.1.2.bind (fun s => s.size)
    brand := p.1.2.bind (fun s => s.brand)
    calendarYear := p.2.map (fun d => d.calendarYear) }

/-- The `merged_df` pipeline of `load_data`: fact table left-joined against
customer on `Customer Key`, city on `City Key`, employee on
`Salesperson Key = Employee Key`, stock item on `Stock Item Key`, and date on
`Invoice Date Key = Date`, in that order. -/
def mergeAll (factsale : List FactRow) (dimcustomer : List DimCustomerRow)
    (dimcity : List DimCityRow) (dimdate : List DimDateRow)
    (dimemployee : List DimEmployeeRow) (dimstockitem : List DimStockItemRow) :
    List Row :=
  let s1 := leftJoin factsale dimcustomer
    (fun f => f.customerKey) (fun c => c.customerKey) Prod.mk
  let s2 := leftJoin s1 dimcity
    (fun p => p.1.cityKey) (fun c => c.cityKey) Prod.mk
  let s3 := leftJoin s2 dimemployee
    (fun p => p.1.1.salespersonKey) (fun e => e.employeeKey) Prod.mk
  let s4 := leftJoin s3 dimstockitem
    (fun p => p.1.1.1.stockItemKey) (fun s => s.stockItemKey) Prod.mk
  let s5 := leftJoin s4 dimdate
    (fun p => p.1.1.1.1.invoiceDateKey) (fun d => d.date) Prod.mk
  s5.map toRow

/-- Raised when a required input file is absent; models the
`FileNotFoundError` that `load_data` re-raises (named `DataNotFoundError`
by the spec). -/
inductive DataNotFoundError where
  | fileNotFound : String → DataNotFoundError
deriving DecidableEq, Repr

/-- The data directory as `load_data` sees it: each of the six expected files
is either present with its parsed table, or absent (`none`). -/
structure FS where
  factSale : Option (List FactRow)
  dimCostumer : Option (List DimCustomerRow)
  dimCity : Option (List DimCityRow)
  dimDate : Option (List DimDateRow)
  dimEmployee : Option (List DimEmployeeRow)
  dimStockItem : Option (List DimStockItemRow)

/-- Decidable equality of fallible results, so that witness theorems can be
checked by evaluation. -/
instance {ε α : Type} [DecidableEq ε] [DecidableEq α] :
    DecidableEq (Except ε α) := fun x y =>
  match x, y with
  | Except.ok v, Except.ok w =>
    if h : v = w then Decidable.isTrue (by rw [h])
    else Decidable.isFalse (by intro hc; cases hc; exact h rfl)
  | Except.error v, Except.error w =>
    if h : v = w then Decidable.isTrue (by rw [h])
    else Decidable.isFalse (by intro hc; cases hc; exact h rfl)
  | Except.ok _, Except.error _ => Decidable.isFalse (by intro hc; cases hc)
  | Except.error _, Except.ok _ => Decidable.isFalse (by intro hc; cases hc)

/-- `pd.read_csv` on one file: the parsed table when the file exists,
otherwise the error the `except FileNotFoundError` branch re-raises. -/
def readTable {α : Type} (t : Option α) (name : String) :
    Except DataNotFoundError α :=
  match t with
  | some x => Except.ok x
  | none => Except.error (DataNotFoundError.fileNotFound name)

/-- The body of `load_data`: read the six files in source order; the first
missing file aborts the whole call with its error and no view is returned. -/
def load_data (fs : FS) : Except DataNotFoundError (List Row) := do
  let factsale ← readTable fs.factSale "FactSale.csv"
  let dimcustomer ← readTable fs.dimCostumer "DimCostumer.csv"
  let dimcity ← readTable fs.dimCity "DimCity.csv"
  let dimdate ← readTable fs.dimDate "DimDate.csv"
  let dimemployee ← readTable fs.dimEmployee "DimEmployee.csv"
  let dimstockitem ← readTable fs.dimStockItem "DimStockItem.csv"
  return mergeAll factsale dimcustomer dimcity dimdate dimemployee dimstockitem

/-- `@st.cache_data` around `load_data`, as explicit state passing: a cached
view is returned unchanged; otherwise the body runs, and only a successful
result is stored (an exception leaves the cache empty and propagates). -/
def cachedLoad (fs : FS) (cache : Option (List Row)) :
    Except DataNotFoundError (List Row) × Option (List Row) :=
  match cache with
  | some v => (Except.ok v, some v)
  | none =>
    match load_data fs with
    | Except.ok v => (Except.ok v, some v)
    | Except.error e => (Except.error e, none)

/-- Raised when the year filter value cannot be coerced to an integer; models
the uncaught `ValueError` of `int(selected_year)` (named
`InvalidFilterError` by the spec). -/
inductive InvalidFilterError where
  | notNumeric : String → InvalidFilterError
deriving DecidableEq, Repr

/-- Decimal digit accumulator for `pyInt`: consumes the remaining
characters, failing on the first non-digit. -/
def pyDigits (cs : List Char) (acc : Nat) : Option Nat :=
  match cs with
  | [] => some acc
  | c :: rest =>
    if c.isDigit then pyDigits rest (acc * 10 + (c.toNat - 48)) else none

/-- Python `int(s)` on the year filter value: `some n` when `s` is an
(optionally negated) decimal integer literal, `none` (a `ValueError`)
otherwise. -/
def pyInt (s : String) : Option Int :=
  match s.toList with
  | [] => none
  | '-' :: rest =>
    if rest.isEmpty then none
    else (pyDigits rest 0).map (fun n => -(n : Int))
  | cs => (pyDigits cs 0).map (fun n => (n : Int))

/-- The state stage of `filter_data`: keep rows whose `State Province`
equals the selected state, unless the sentinel "All". A missing cell
(`none`) never equals a concrete selection, exactly as a NaN never compares
equal in pandas. -/
def stateFilter (df : List Row) (selected_state : String) : List Row :=
  if selected_state ≠ "All" then
    df.filter (fun r => decide (r.stateProvince = some selected_state))
  else df

/-- `filter_data(df, selected_state, selected_year)`: copy the view, apply
the state stage, then keep rows whose `Calendar Year` equals
`int(selected_year)` (unless "All"). A non-numeric year raises. -/
def filter_data (df : List Row) (selected_state selected_year : String) :
    Except InvalidFilterError (List Row) :=
  let filtered_df := stateFilter df selected_state
  if selected_year ≠ "All" then
    match pyInt selected_year with
    | none => Except.error (InvalidFilterError.notNumeric selected_year)
    | some n =>
      Except.ok (filtered_df.filter (fun r => decide (r.calendarYear = some n)))
  else
    Except.ok filtered_df

/-- `len(filtered_df[Color].dropna().unique())`. -/
def uniqueColors (df : List Row) : Nat :=
  ((df.filterMap (fun r => r.color)).dedup).length

/-- `len(filtered_df[Size].dropna().unique())`. -/
def uniqueSizes (df : List Row) : Nat :=
  ((df.filterMap (fun r => r.size)).dedup).length

/-- `filtered_df[UnitPrice].sum()`. -/
def totalRevenue (df : List Row) : ℚ :=
  (df.map (fun r => r.unitPrice)).sum

/-- `round(filtered_df[UnitPrice].mean(), 2)`: the mean of an empty series is
NaN, modelled as `none`; otherwise the exact mean rounded to two decimals. -/
def avgUnitPrice (df : List Row) : Option ℚ :=
  match df with
  | [] => none
  | _ =>
    some (((round ((totalRevenue df / (df.length : ℚ)) * 100) : ℤ) : ℚ) / 100)

/-- `df.groupby(key)[UnitPrice].sum()` for a total (never-missing) string
key: one `(key, sum of unit prices)` pair per distinct key value. -/
def groupSum (key : Row → String) (df : List Row) : List (String × ℚ) :=
  ((df.map key).dedup).map (fun k =>
    (k, ((df.filter (fun r => decide (key r = k))).map
      (fun r => r.unitPrice)).sum))

/-- `filtered_df.groupby(filtered_df[Size].fillna(Sin Talla))[UnitPrice].sum()`. -/
def salesBySize (df : List Row) : List (String × ℚ) :=
  groupSum (fun r => r.size.getD "Sin Talla") df

/-- `filtered_df.groupby(filtered_df[Brand].fillna(Sin Marca))[UnitPrice].sum()`. -/
def salesByBrand (df : List Row) : List (String × ℚ) :=
  groupSum (fun r => r.brand.getD "Sin Marca") df

/-- A process heap of DataFrames, for the frame property of `filter_data`:
views are heap cells addressed by index. -/
abbrev Store : Type := List (List Row)

/-- Run `filter_data` against the view stored at index `i`: on success the
derived copy is placed in a fresh cell and its index returned; existing cells
are never written. -/
def runFilter (s : Store) (i : Nat) (selected_state selected_year : String) :
    Store × Except InvalidFilterError Nat :=
  match filter_data (s.getD i []) selected_state selected_year with
  | Except.ok l => (s ++ [l], Except.ok s.length)
  | Except.error e => (s, Except.error e)

/-! Concrete sample tables, used by the witness theorems. -/

/-- A two-row sample fact table. -/
def sampleFact : List FactRow :=
  [ { customerKey := 1, cityKey := 10, salespersonKey := 100,
      stockItemKey := 1000, invoiceDateKey := 20130101,
      unitPrice := 10, taxAmount := 1 },
    { customerKey := 2, cityKey := 11, salespersonKey := 100,
      stockItemKey := 1001, invoiceDateKey := 20140101,
      unitPrice := 20, taxAmount := 2 } ]

/-- A sample customer dimension with unique keys. -/
def sampleCustomers : List DimCustomerRow :=
  [ { customerKey := 1, customer := some "Ana" },
    { customerKey := 2, customer := some "Luis" } ]

/-- A sample city dimension with unique keys. -/
def sampleCities : List DimCityRow :=
  [ { cityKey := 10, city := some "Sacramento",
      stateProvince := some "California" },
    { cityKey := 11, city := some "Reno", stateProvince := some "Nevada" } ]

/-- A sample date dimension with unique keys. -/
def sampleDates : List DimDateRow :=
  [ { date := 20130101, calendarYear := 2013 },
    { date := 20140101, calendarYear := 2014 } ]

/-- A sample employee dimension with unique keys. -/
def sampleEmployees : List DimEmployeeRow :=
  [ { employeeKey := 100, employee := some "Eva" } ]

/-- A sample stock-item dimension with unique keys; one item has no size. -/
def sampleStockItems : List DimStockItemRow :=
  [ { stockItemKey := 1000, color := some "Red", size := none,
      brand := some "Acme" },
    { stockItemKey := 1001, color := some "Blue", size := some "M",
      brand := none } ]

/-- A data directory with all six files present. -/
def sampleFS : FS :=
  { factSale := some sampleFact
    dimCostumer := some sampleCustomers
    dimCity := some sampleCities
    dimDate := some sampleDates
    dimEmployee := some sampleEmployees
    dimStockItem := some sampleStockItems }

/-- The same directory with `DimCity.csv` absent. -/
def sampleFSMissing : FS :=
  { sampleFS with dimCity := none }

/-- A sample Integrated View row used by filter witnesses. -/
def sampleRow : Row :=
  { unitPrice := 10, taxAmount := 1, customer := some "Ana",
    city := some "Sacramento", stateProvince := some "California",
    employee := some "Eva", color := some "Red", size := none,
    brand := some "Acme", calendarYear := some 2013 }

/-- A second sample view row, in Nevada, year 2014. -/
def sampleRow2 : Row :=
  { unitPrice := 20, taxAmount := 2, customer := some "Luis",
    city := some "Reno", stateProvince := some "Nevada",
    employee := some "Eva", color := some "Blue", size := some "M",
    brand := none, calendarYear := some 2014 }

/-- A two-row sample view. -/
def sampleView : List Row :=
  [sampleRow, sampleRow2]

/-! ## Join row-count preservation -/

/-- With pairwise-distinct right-side keys, at most one right row matches a
given key. -/
lemma filter_key_length_le_one {β : Type} (kr : β → Int) (rs : List β)
    (h : (rs.map kr).Nodup) (k : Int) :
    (rs.filter (fun r => decide (kr r = k))).length ≤ 1 := by
  induction rs with
  | nil => simp
  | cons r t ih =>
    rw [List.map_cons, List.nodup_cons] at h
    by_cases hk : kr r = k
    · rw [List.filter_cons_of_pos (by simpa using hk)]
      have ht : t.filter (fun x => decide (kr x = k)) = [] := by
        refine List.filter_eq_nil_iff.mpr (fun a ha => ?_)
        simp only [decide_eq_true_eq]
        intro hka
        exact h.1 ((hka.trans hk.symm) ▸ List.mem_map_of_mem kr ha)
      rw [ht]
      simp
    · rw [List.filter_cons_of_neg (by simpa using hk)]
      exact ih h.2

/-- With unique right-side keys, every left row produces exactly one output
row: its match when one exists, else the null-extended row. -/
lemma joinRow_length {α β γ : Type} (rs : List β) (kl : α → Int)
    (kr : β → Int) (mk : α → Option β → γ) (l : α)
    (h : (rs.map kr).Nodup) : (joinRow rs kl kr mk l).length = 1 := by
  have h1 := filter_key_length_le_one kr rs h (kl l)
  rcases hm : rs.filter (fun r => decide (kr r = kl l)) with _ | ⟨m, _ | ⟨m2, ms⟩⟩
  · simp [joinRow, hm]
  · simp [joinRow, hm]
  · rw [hm] at h1
    simp at h1

/-- A left join against a dimension with unique keys preserves the row count
of the left table. -/
lemma leftJoin_length {α β γ : Type} (ls : List α) (rs : List β)
    (kl : α → Int) (kr : β → Int) (mk : α → Option β → γ)
    (h : (rs.map kr).Nodup) : (leftJoin ls rs kl kr mk).length = ls.length := by
  induction ls with
  | nil => rfl
  | cons l t ih =>
    simp only [leftJoin, List.map_cons, List.flatten_cons, List.length_append,
      List.length_cons]
    rw [joinRow_length rs kl kr mk l h]
    simp only [leftJoin] at ih
    omega

/-- The five-join pipeline preserves the fact-table row count when every
dimension table has unique join keys. -/
lemma mergeAll_length (factsale : List FactRow)
    (dimcustomer : List DimCustomerRow) (dimcity : List DimCityRow)
    (dimdate : List DimDateRow) (dimemployee : List DimEmployeeRow)
    (dimstockitem : List DimStockItemRow)
    (n1 : (dimcustomer.map (fun c => c.customerKey)).Nodup)
    (n2 : (dimcity.map (fun c => c.cityKey)).Nodup)
    (n3 : (dimemployee.map (fun e => e.employeeKey)).Nodup)
    (n4 : (dimstockitem.map (fun s => s.stockItemKey)).Nodup)
    (n5 : (dimdate.map (fun d => d.date)).Nodup) :
    (mergeAll factsale dimcustomer dimcity dimdate dimemployee
      dimstockitem).length = factsale.length := by
  simp only [mergeAll, List.length_map]
  rw [leftJoin_length _ _ _ _ _ n5, leftJoin_length _ _ _ _ _ n4,
    leftJoin_length _ _ _ _ _ n3, leftJoin_length _ _ _ _ _ n2,
    leftJoin_length _ _ _ _ _ n1]

/-- C1: with all six files present and unique keys in every dimension table,
`load_data` succeeds and its Integrated View has exactly as many rows as the
fact table: the five anchored left joins neither drop nor duplicate fact
rows. -/
theorem load_data_length (fs : FS) (fact : List FactRow)
    (dcu : List DimCustomerRow) (dci : List DimCityRow)
    (dda : List DimDateRow) (dem : List DimEmployeeRow)
    (dst : List DimStockItemRow)
    (hf : fs.factSale = some fact) (hcu : fs.dimCostumer = some dcu)
    (hci : fs.dimCity = some dci) (hda : fs.dimDate = some dda)
    (hem : fs.dimEmployee = some dem) (hst : fs.dimStockItem = some dst)
    (n1 : (dcu.map (fun c => c.customerKey)).Nodup)
    (n2 : (dci.map (fun c => c.cityKey)).Nodup)
    (n3 : (dem.map (fun e => e.employeeKey)).Nodup)
    (n4 : (dst.map (fun s => s.stockItemKey)).Nodup)
    (n5 : (dda.map (fun d => d.date)).Nodup) :
    ∃ v, load_data fs = Except.ok v ∧ v.length = fact.length := by
  refine ⟨mergeAll fact dcu dci dda dem dst, ?_, ?_⟩
  · simp only [load_data, readTable, hf, hcu, hci, hda, hem, hst]
    rfl
  · exact mergeAll_length fact dcu dci dda dem dst n1 n2 n3 n4 n5

/-- C1 witness: on the concrete sample directory, `load_data` returns a view
with as many rows as the two-row sample fact table. -/
theorem load_data_length_witness :
    ∃ v, load_data sampleFS = Except.ok v ∧ v.length = sampleFact.length :=
  load_data_length sampleFS sampleFact sampleCustomers sampleCities
    sampleDates sampleEmployees sampleStockItems rfl rfl rfl rfl rfl rfl
    (by decide) (by decide) (by decide) (by decide) (by decide)

/-! ## Missing files and the cache -/

/-- If any of the six expected files is absent, the body of `load_data`
raises. -/
lemma load_data_missing (fs : FS)
    (h : fs.factSale = none ∨ fs.dimCostumer = none ∨ fs.dimCity = none ∨
      fs.dimDate = none ∨ fs.dimEmployee = none ∨ fs.dimStockItem = none) :
    ∃ e, load_data fs = Except.error e := by
  cases hf : fs.factSale with
  | none => exact ⟨_, by simp only [load_data, readTable, hf]; rfl⟩
  | some f =>
  cases hcu : fs.dimCostumer with
  | none => exact ⟨_, by simp only [load_data, readTable, hf, hcu]; rfl⟩
  | some cu =>
  cases hci : fs.dimCity with
  | none => exact ⟨_, by simp only [load_data, readTable, hf, hcu, hci]; rfl⟩
  | some ci =>
  cases hda : fs.dimDate with
  | none =>
    exact ⟨_, by simp only [load_data, readTable, hf, hcu, hci, hda]; rfl⟩
  | some da =>
  cases hem : fs.dimEmployee with
  | none =>
    exact ⟨_, by simp only [load_data, readTable, hf, hcu, hci, hda, hem]; rfl⟩
  | some em =>
  cases hst : fs.dimStockItem with
  | none =>
    exact ⟨_, by
      simp only [load_data, readTable, hf, hcu, hci, hda, hem, hst]; rfl⟩
  | some st =>
    rcases h with h | h | h | h | h | h <;>
      first
      | exact absurd h (by simp [hf])
      | exact absurd h (by simp [hcu])
      | exact absurd h (by simp [hci])
      | exact absurd h (by simp [hda])
      | exact absurd h (by simp [hem])
      | exact absurd h (by simp [hst])

/-- C3: with any expected file absent, the cached load fails with
`DataNotFoundError`, leaves the cache empty (no provisional or incomplete view),
and a subsequent load against any directory behaves exactly as if the failed
attempt had never happened. -/
theorem load_missing_no_cache (fs : FS)
    (h : fs.factSale = none ∨ fs.dimCostumer = none ∨ fs.dimCity = none ∨
      fs.dimDate = none ∨ fs.dimEmployee = none ∨ fs.dimStockItem = none) :
    (∃ e, (cachedLoad fs none).1 = Except.error e) ∧
      (cachedLoad fs none).2 = none ∧
      ∀ fs2 : FS, cachedLoad fs2 (cachedLoad fs none).2 = cachedLoad fs2 none := by
  obtain ⟨e, he⟩ := load_data_missing fs h
  refine ⟨⟨e, ?_⟩, ?_, fun fs2 => ?_⟩ <;> simp [cachedLoad, he]

/-- C3 witness: on the sample directory missing `DimCity.csv`, the cached
load errors, caches nothing, and does not disturb a later load. -/
theorem load_missing_no_cache_witness :
    (∃ e, (cachedLoad sampleFSMissing none).1 = Except.error e) ∧
      (cachedLoad sampleFSMissing none).2 = none ∧
      ∀ fs2 : FS, cachedLoad fs2 (cachedLoad sampleFSMissing none).2 =
        cachedLoad fs2 none :=
  load_missing_no_cache sampleFSMissing (Or.inr (Or.inr (Or.inl rfl)))

/-! ## Aggregation over the empty row-set -/

/-- C2: on the empty filtered row-set, aggregation is well defined:
zero unique colors, zero unique sizes, zero total revenue, and an average
unit price reported as not-a-number (`none`). -/
theorem aggregate_empty :
    uniqueColors [] = 0 ∧ uniqueSizes [] = 0 ∧ totalRevenue [] = 0 ∧
      avgUnitPrice [] = none :=
  ⟨rfl, rfl, rfl, rfl⟩

/-! ## The sentinel filter -/

/-- C4: filtering with the sentinel "All" on both dimensions returns the
full view unchanged. -/
theorem filter_data_all_all (df : List Row) :
    filter_data df "All" "All" = Except.ok df := by
  simp [filter_data, stateFilter]

/-! ## Filter algebra -/

/-- The state stage only discards rows. -/
lemma stateFilter_sublist (df : List Row) (region : String) :
    (stateFilter df region).Sublist df := by
  unfold stateFilter
  split
  · exact List.filter_sublist df
  · exact List.Sublist.refl df

/-- With the year sentinel, `filter_data` succeeds and is exactly the state
stage. -/
lemma filter_data_year_all (df : List Row) (region : String) :
    filter_data df region "All" = Except.ok (stateFilter df region) := by
  simp only [filter_data]
  rw [if_neg (fun hc => hc rfl)]

/-- Any successful `filter_data` result is the state stage, possibly further
filtered by a parsed year. -/
lemma filter_data_ok_cases (df : List Row) (region year : String)
    (l : List Row) (h : filter_data df region year = Except.ok l) :
    (year = "All" ∧ l = stateFilter df region) ∨
      ∃ n, pyInt year = some n ∧
        l = (stateFilter df region).filter
          (fun r => decide (r.calendarYear = some n)) := by
  simp only [filter_data] at h
  by_cases hy : year ≠ "All"
  · rw [if_pos hy] at h
    cases hpy : pyInt year with
    | none => rw [hpy] at h; exact absurd h (by simp)
    | some n =>
      rw [hpy] at h
      refine Or.inr ⟨n, rfl, ?_⟩
      exact (Except.ok.injEq _ _ ▸ h).symm
  · rw [if_neg hy] at h
    exact Or.inl ⟨not_not.mp hy, (Except.ok.injEq _ _ ▸ h).symm⟩

/-- C5: adding a concrete filter dimension only removes rows: a successful
`filter_data df region year` is a sub-sequence of
`filter_data df region "All"`, which is a sub-sequence of the view. -/
theorem filter_data_subset_chain (df : List Row) (region year : String)
    (l : List Row) (h : filter_data df region year = Except.ok l) :
    ∃ m, filter_data df region "All" = Except.ok m ∧ l.Sublist m ∧
      m.Sublist df := by
  refine ⟨stateFilter df region, filter_data_year_all df region, ?_,
    stateFilter_sublist df region⟩
  rcases filter_data_ok_cases df region year l h with ⟨_, h1⟩ | ⟨n, _, h1⟩
  · exact h1 ▸ List.Sublist.refl _
  · exact h1 ▸ List.filter_sublist _

/-- C5 witness: filtering the two-row sample view by California and 2013
yields a sub-sequence of the California-only result, itself a sub-sequence
of the view. -/
theorem filter_data_subset_chain_witness :
    ∃ m, filter_data sampleView "California" "All" = Except.ok m ∧
      List.Sublist [sampleRow] m ∧ m.Sublist sampleView :=
  filter_data_subset_chain sampleView "California" "2013" [sampleRow]
    (by decide)

/-- C6: per filtered dimension, a concrete (non-sentinel) selection excludes
every row whose cell in that column is missing: in any successful
`filter_data` result — whatever the other dimension was set to — a concrete
region forces `stateProvince = some region` on every surviving row, and a
year that parses to the integer `n` forces `calendarYear = some n` (the
stored year is compared by integer equality); left-join nulls never match. -/
theorem filter_data_concrete_excludes (df : List Row) (region year : String)
    (n : Int) (l : List Row) (row : Row)
    (h : filter_data df region year = Except.ok l) (hrow : row ∈ l) :
    (region ≠ "All" → row.stateProvince = some region) ∧
      (pyInt year = some n → row.calendarYear = some n) := by
  have hstate : row ∈ stateFilter df region →
      region ≠ "All" → row.stateProvince = some region := by
    intro hmem hr
    unfold stateFilter at hmem
    rw [if_pos hr] at hmem
    simpa using (List.mem_filter.mp hmem).2
  rcases filter_data_ok_cases df region year l h with ⟨hy, h1⟩ | ⟨m, hpy, h1⟩
  · subst h1
    refine ⟨hstate hrow, ?_⟩
    intro hn
    rw [hy, show pyInt "All" = none from rfl] at hn
    exact Option.noConfusion hn
  · subst h1
    obtain ⟨hrow1, hrow2⟩ := List.mem_filter.mp hrow
    refine ⟨hstate hrow1, ?_⟩
    intro hn
    rw [hpy] at hn
    injection hn with hn
    subst hn
    simpa using hrow2

/-- C6 witness: filtering the sample view by California and 2013, the
surviving sample row carries exactly the requested state and the requested
integer year. -/
theorem filter_data_concrete_excludes_witness :
    ("California" ≠ "All" → sampleRow.stateProvince = some "California") ∧
      (pyInt "2013" = some 2013 → sampleRow.calendarYear = some 2013) :=
  filter_data_concrete_excludes sampleView "California" "2013" 2013
    [sampleRow] sampleRow (by decide) (by decide)

/-- C8: a non-numeric year selection makes `filter_data` fail with
`InvalidFilterError`; neither unfiltered nor half-filtered data is returned. -/
theorem filter_data_bad_year (df : List Row) (region year : String)
    (hyA : year ≠ "All") (hy : pyInt year = none) :
    filter_data df region year =
      Except.error (InvalidFilterError.notNumeric year) := by
  simp only [filter_data]
  rw [if_pos hyA, hy]

/-- C8 witness: the year value "x" is rejected on the sample view. -/
theorem filter_data_bad_year_witness :
    filter_data sampleView "All" "x" =
      Except.error (InvalidFilterError.notNumeric "x") :=
  filter_data_bad_year sampleView "All" "x" (by decide) (by decide)

/-- C10: a concrete region value that occurs nowhere in the column
`State Province` of the view is not an error: the filter succeeds and returns the
empty row-set. -/
theorem filter_data_unknown_region (df : List Row) (region : String)
    (hr : region ≠ "All")
    (habs : ∀ row ∈ df, ¬ row.stateProvince = some region) :
    filter_data df region "All" = Except.ok [] := by
  rw [filter_data_year_all df region]
  congr 1
  unfold stateFilter
  rw [if_pos hr]
  exact List.filter_eq_nil_iff.mpr (fun r hrw => by simpa using habs r hrw)

/-- C10 witness: Texas occurs nowhere in the sample view, and filtering by
it returns the empty row-set. -/
theorem filter_data_unknown_region_witness :
    filter_data sampleView "Texas" "All" = Except.ok [] :=
  filter_data_unknown_region sampleView "Texas" (by decide) (by decide)

/-! ## Frame property of filtering -/

/-- C9: running `filter_data` against a stored view writes no existing heap
cell: every previously stored view, in particular the cached Integrated
View, is unchanged; the result lives in a fresh cell. -/
theorem runFilter_frame (s : Store) (i : Nat) (region year : String)
    (j : Nat) (hj : j < s.length) :
    ((runFilter s i region year).1).getD j [] = s.getD j [] := by
  unfold runFilter
  rcases hfd : filter_data (s.getD i []) region year with e | l
  · rfl
  · show (s ++ [l]).getD j [] = s.getD j []
    exact List.getD_append s [l] [] j hj

/-- C9 witness: filtering the single stored sample view leaves it in place. -/
theorem runFilter_frame_witness :
    ((runFilter [sampleView] 0 "California" "All").1).getD 0 [] =
      [sampleView].getD 0 [] :=
  runFilter_frame [sampleView] 0 "California" "All" 0 (by decide)

/-! ## Grouped sums and total revenue -/

/-- Summing a pointwise sum of two maps splits into two sums. -/
lemma sum_map_add_pair (f g : String → ℚ) (l : List String) :
    (l.map (fun x => f x + g x)).sum = (l.map f).sum + (l.map g).sum := by
  induction l with
  | nil => simp
  | cons a t ih =>
    simp only [List.map_cons, List.sum_cons, ih]
    ring

/-- Over pairwise-distinct keys containing `a`, a sum that contributes `c`
exactly at `a` totals `c`. -/
lemma sum_map_single (a : String) (c : ℚ) (ks : List String)
    (hnd : ks.Nodup) (ha : a ∈ ks) :
    (ks.map (fun k => if a = k then c else 0)).sum = c := by
  induction ks with
  | nil => cases ha
  | cons k t ih =>
    rw [List.nodup_cons] at hnd
    rcases List.mem_cons.mp ha with h | h
    · subst h
      simp only [List.map_cons, List.sum_cons, if_pos rfl]
      have hz : ∀ x ∈ t, (if a = x then c else (0 : ℚ)) = 0 :=
        fun x hx => if_neg (fun e : a = x => hnd.1 (e ▸ hx))
      rw [List.map_congr_left hz]
      simp
    · have hk : a ≠ k := fun e => hnd.1 (e ▸ h)
      simp only [List.map_cons, List.sum_cons, if_neg hk]
      rw [ih hnd.2 h]
      ring

/-- Partitioning a row-set by a total key and summing unit prices per part
recovers the total sum: no row is dropped and none is counted twice. -/
lemma sum_filter_partition (key : Row → String) (ks : List String)
    (hnd : ks.Nodup) :
    ∀ df : List Row, (∀ r ∈ df, key r ∈ ks) →
      (ks.map (fun k => ((df.filter (fun r => decide (key r = k))).map
        (fun r => r.unitPrice)).sum)).sum =
      (df.map (fun r => r.unitPrice)).sum := by
  intro df
  induction df with
  | nil =>
    intro _
    simp
  | cons r t ih =>
    intro hcov
    have hr : key r ∈ ks := hcov r (List.mem_cons_self r t)
    have ht : ∀ x ∈ t, key x ∈ ks := fun x hx => hcov x (List.mem_cons_of_mem r hx)
    have hsplit : ∀ k ∈ ks, (((r :: t).filter
        (fun x => decide (key x = k))).map (fun x => x.unitPrice)).sum =
        (if key r = k then r.unitPrice else 0) +
          ((t.filter (fun x => decide (key x = k))).map
            (fun x => x.unitPrice)).sum := by
      intro k _
      by_cases h : key r = k
      · rw [List.filter_cons_of_pos (by simpa using h), if_pos h]
        simp
      · rw [List.filter_cons_of_neg (by simpa using h), if_neg h]
        simp
    rw [List.map_congr_left hsplit, sum_map_add_pair,
      sum_map_single (key r) r.unitPrice ks hnd hr, ih ht]
    simp

/-- A grouped unit-price sum over a total key totals the revenue. -/
lemma groupSum_snd_sum (key : Row → String) (df : List Row) :
    ((groupSum key df).map Prod.snd).sum = totalRevenue df := by
  unfold groupSum totalRevenue
  rw [List.map_map]
  exact sum_filter_partition key ((df.map key).dedup) (List.nodup_dedup _) df
    (fun r hr => List.mem_dedup.mpr (List.mem_map_of_mem key hr))

/-- C7: the per-group totals of `salesBySize` sum to `totalRevenue`, and so
do the per-group totals of `salesByBrand`: because missing sizes and brands
are replaced by the placeholder categories before grouping, the unit price
of no row is dropped from either grouped aggregate. -/
theorem grouped_sums_total (df : List Row) :
    ((salesBySize df).map Prod.snd).sum = totalRevenue df ∧
      ((salesByBrand df).map Prod.snd).sum = totalRevenue df :=
  ⟨groupSum_snd_sum _ df, groupSum_snd_sum _ df⟩

end Dashboard
